import Mathlib

/-!
Verification of the pyinfra connector fabric (SSH and Docker connectors)
against its natural-language specification.

The definitions below are a shallow embedding of the Python sources
`pyinfra/connectors/ssh.py` and `pyinfra/connectors/docker.py`.  Remote and
local side effects (SFTP transfers, executed shell commands, opened files)
are made observable as explicit action traces; fallible calls return
`Except`.  The orchestrator (`pyinfra/api/operations.py`) is not part of the
provided sources and is modelled from the spec where a claim needs it.
-/

/-! ## Command outcome status (ssh.py, `run_shell_command`, lines 253-264)

The SSH connector computes the boolean status of a finished command from the
exit status and the optional `_success_exit_codes` argument:

    if _success_exit_codes:
        status = return_code in _success_exit_codes
    else:
        status = return_code == 0

Python truthiness makes both a missing argument and an empty collection fall
back to the `== 0` test; `Option (List Int)` with an `isEmpty` check mirrors
that exactly.
-/

def runShellCommandStatus (returnCode : Int) (successExitCodes : Option (List Int)) : Bool :=
  match successExitCodes with
  | some codes => if codes.isEmpty then returnCode == 0 else codes.contains returnCode
  | none => returnCode == 0

/-- Embedding of the tail of `SSHConnector.run_shell_command`: the pair the
connector returns is the status computed from the exit status together with
the combined output, unchanged. -/
def runShellCommandResult (returnCode : Int) (combinedOutput : String)
    (successExitCodes : Option (List Int)) : Bool × String :=
  (runShellCommandStatus returnCode successExitCodes, combinedOutput)

/-! ## SFTP upload retry loop (ssh.py, `_put_file`, lines 352-370)

    attempts = 0
    last_e = None
    while attempts < 3:
        try:
            ... sftp.putfo(file_io, remote_location)
            return
        except OSError as e:
            attempts += 1
            last_e = e
    if last_e is not None:
        raise last_e

The loop is embedded with an explicit `remaining = 3 - attempts` fuel so the
recursion is structural.  `attempt k` is the outcome of the `k`-th
`sftp.putfo` call (0-indexed); the result records how many calls were made
and whether the upload succeeded or which error was finally raised.
-/

def sshPutFileGo (attempt : Nat → Except String Unit) (attempts : Nat)
    (lastE : Option String) : Nat → Nat × Except String Unit
  | 0 =>
    match lastE with
    | some e => (attempts, Except.error e)
    | none => (attempts, Except.ok ())
  | remaining + 1 =>
    match attempt attempts with
    | Except.ok _ => (attempts + 1, Except.ok ())
    | Except.error e => sshPutFileGo attempt (attempts + 1) (some e) remaining

/-- `SSHConnector._put_file`: the retry loop entered with `attempts = 0`,
`last_e = None` and the guard `attempts < 3`. -/
def sshPutFileTransfer (attempt : Nat → Except String Unit) : Nat × Except String Unit :=
  sshPutFileGo attempt 0 none 3

/-- `SSHConnector._get_file` (ssh.py lines 281-284) performs a single
`sftp.getfo` call with no retry loop around it: exactly one attempt is made
and its outcome (success or raised error) is the outcome of the transfer. -/
def sshGetFileTransfer (attempt : Nat → Except String Unit) : Nat × Except String Unit :=
  (1, attempt 0)

/-- Claim C4 counterexample: the claim states that exit status 0 yields a
true status for every invocation, regardless of any supplied allow-list; but
with the explicit allow-list `[1]` the code computes `0 in [1]`, which is
false. -/
theorem c4_claim_counterexample :
    runShellCommandStatus 0 (some [1]) = false := by decide

/-- Claim C4 (amended): exit status 0 yields status true when no allow-list
or an empty allow-list is supplied; when a non-empty `_success_exit_codes`
allow-list is supplied the status is true exactly when the exit status is in
the list, so exit status 0 yields status false if 0 is not listed. -/
theorem c4_amended_status_rule (returnCode : Int) (codes : List Int) :
    (runShellCommandStatus returnCode none = true ↔ returnCode = 0)
    ∧ (codes.isEmpty = true →
        (runShellCommandStatus returnCode (some codes) = true ↔ returnCode = 0))
    ∧ (codes.isEmpty = false →
        (runShellCommandStatus returnCode (some codes) = true ↔ returnCode ∈ codes)) := by
  refine ⟨?_, ?_, ?_⟩
  · simp [runShellCommandStatus]
  · intro h
    simp [runShellCommandStatus, h]
  · intro h
    simp [runShellCommandStatus, h]

/-- Claim C4 amended, evaluated: exit status 0 is a success with no
allow-list, exit status 2 is a success under the allow-list `[2, 4]`, and
exit status 0 is a failure under that same allow-list. -/
theorem c4_amended_witness :
    ([(2 : Int), 4].isEmpty = false)
    ∧ runShellCommandStatus 0 none = true
    ∧ runShellCommandStatus 2 (some [2, 4]) = true
    ∧ runShellCommandStatus 0 (some [2, 4]) = false := by
  refine ⟨by decide, ?_, ?_, ?_⟩
  · exact (c4_amended_status_rule 0 []).1.mpr rfl
  · exact ((c4_amended_status_rule 2 [2, 4]).2.2 (by decide)).mpr (by decide)
  · have h := (c4_amended_status_rule 0 [2, 4]).2.2 (by decide)
    by_contra hc
    simp only [Bool.not_eq_false] at hc
    have := h.mp hc
    simp at this

/-- Claim C5: the SFTP upload in `_put_file` makes at most 3 attempts,
returns as soon as one attempt succeeds, and after three failed attempts
raises the last error; the SFTP download in `_get_file` makes exactly one
attempt and propagates its error. -/
theorem c5_upload_retry_download_no_retry (attempt : Nat → Except String Unit)
    (e0 e1 e2 : String) :
    (sshPutFileTransfer attempt).1 ≤ 3
    ∧ (attempt 0 = Except.ok () → sshPutFileTransfer attempt = (1, Except.ok ()))
    ∧ (attempt 0 = Except.error e0 → attempt 1 = Except.ok () →
        sshPutFileTransfer attempt = (2, Except.ok ()))
    ∧ (attempt 0 = Except.error e0 → attempt 1 = Except.error e1 →
        attempt 2 = Except.ok () → sshPutFileTransfer attempt = (3, Except.ok ()))
    ∧ (attempt 0 = Except.error e0 → attempt 1 = Except.error e1 →
        attempt 2 = Except.error e2 → sshPutFileTransfer attempt = (3, Except.error e2))
    ∧ sshGetFileTransfer attempt = (1, attempt 0) := by
  refine ⟨?_, ?_, ?_, ?_, ?_, rfl⟩
  · unfold sshPutFileTransfer sshPutFileGo
    cases attempt 0 with
    | ok _ => simp
    | error e =>
      unfold sshPutFileGo
      cases attempt 1 with
      | ok _ => simp
      | error e =>
        unfold sshPutFileGo
        cases attempt 2 with
        | ok _ => simp
        | error e =>
          unfold sshPutFileGo
          simp
  · intro h0
    simp [sshPutFileTransfer, sshPutFileGo, h0]
  · intro h0 h1
    simp [sshPutFileTransfer, sshPutFileGo, h0, h1]
  · intro h0 h1 h2
    simp [sshPutFileTransfer, sshPutFileGo, h0, h1, h2]
  · intro h0 h1 h2
    simp [sshPutFileTransfer, sshPutFileGo, h0, h1, h2]

/-- Claim C5 evaluated at a concrete attempt oracle that fails twice and
succeeds on the third attempt: three attempts are made and the transfer
succeeds, while the download makes its single attempt and fails at once. -/
theorem c5_witness :
    (fun k => if k < 2 then Except.error "io" else Except.ok ()) 0 = Except.error "io"
    ∧ (fun k => if k < 2 then Except.error "io" else Except.ok ()) 1 = Except.error "io"
    ∧ (fun k => if k < 2 then (Except.error "io" : Except String Unit) else Except.ok ()) 2
        = Except.ok ()
    ∧ sshPutFileTransfer (fun k => if k < 2 then Except.error "io" else Except.ok ())
        = (3, Except.ok ())
    ∧ sshGetFileTransfer (fun k => if k < 2 then Except.error "io" else Except.ok ())
        = (1, Except.error "io") := by
  refine ⟨rfl, rfl, rfl, ?_, ?_⟩
  · exact (c5_upload_retry_download_no_retry
      (fun k => if k < 2 then Except.error "io" else Except.ok ()) "io" "io" "io").2.2.2.1
      rfl rfl rfl
  · have h := (c5_upload_retry_download_no_retry
      (fun k => if k < 2 then Except.error "io" else Except.ok ()) "io" "io" "io").2.2.2.2.2
    rw [h]
    norm_num

/-! ## Shell quoting (Python `shlex.quote`, used by ssh.py `rsync`)

`shlex.quote(s)` returns `''` for the empty string, returns `s` unchanged
when every character is in the safe set (alphanumerics, underscore and
the punctuation `@ % + = : , . / -`), and
otherwise wraps `s` in single quotes with every embedded single quote
rewritten to the five characters quote, double-quote, quote, double-quote,
quote.
-/

/-- The characters `shlex._find_unsafe` treats as safe:
alphanumerics, underscore and the punctuation `@ % + = : , . / -`. -/
def isSafeChar (c : Char) : Bool :=
  c.isAlphanum || c = '_' || c = '@' || c = '%' || c = '+' || c = '=' || c = ':'
    || c = ',' || c = '.' || c = '/' || c = '-'

/-- The character expansion of `s.replace("'", "'\"'\"'")` in `shlex.quote`. -/
def escChars : List Char → List Char
  | [] => []
  | c :: rest => (if c = '\'' then ['\'', '"', '\'', '"', '\''] else [c]) ++ escChars rest

/-- `shlex.quote`. -/
def shlexQuote (s : String) : String :=
  if s = "" then "''"
  else if s.data.all isSafeChar then s
  else "'" ++ String.mk (escChars s.data) ++ "'"

/-! A minimal model of POSIX shell word splitting, covering the constructs
`shlex.quote` output can contain: unquoted characters, single-quoted
sections, double-quoted sections and space separation.  `none` models a
syntax error (an unterminated quote at end of input). -/

inductive QMode
  | unq
  | sq
  | dq
deriving DecidableEq

/-- One left-to-right pass over the input: current quoting mode, whether a
word is in progress (so `''` yields an empty word), the accumulated
characters of the current word, and the words already emitted. -/
def tokAux : List Char → QMode → Bool → List Char → List String → Option (List String)
  | [], QMode.unq, started, acc, toks =>
    some (if started then toks ++ [String.mk acc] else toks)
  | [], QMode.sq, _, _, _ => none
  | [], QMode.dq, _, _, _ => none
  | c :: rest, QMode.unq, started, acc, toks =>
    if c = ' ' then
      if started then tokAux rest QMode.unq false [] (toks ++ [String.mk acc])
      else tokAux rest QMode.unq false acc toks
    else if c = '\'' then tokAux rest QMode.sq true acc toks
    else if c = '"' then tokAux rest QMode.dq true acc toks
    else tokAux rest QMode.unq true (acc ++ [c]) toks
  | c :: rest, QMode.sq, started, acc, toks =>
    if c = '\'' then tokAux rest QMode.unq started acc toks
    else tokAux rest QMode.sq started (acc ++ [c]) toks
  | c :: rest, QMode.dq, started, acc, toks =>
    if c = '"' then tokAux rest QMode.unq started acc toks
    else tokAux rest QMode.dq started (acc ++ [c]) toks

/-- Split a string into shell words. -/
def shellTokenize (s : String) : Option (List String) :=
  tokAux s.data QMode.unq false [] []

/-- Inside a single-quoted section, consuming the escaped expansion of `s`
accumulates exactly `s` and returns to the same state. -/
theorem tokAux_escChars (s : List Char) : ∀ (rest acc : List Char) (toks : List String),
    tokAux (escChars s ++ rest) QMode.sq true acc toks
      = tokAux rest QMode.sq true (acc ++ s) toks := by
  induction s with
  | nil => intro rest acc toks; simp [escChars]
  | cons c cs ih =>
    intro rest acc toks
    by_cases hc : c = '\''
    · subst hc
      have h5 : escChars ('\'' :: cs) = '\'' :: '"' :: '\'' :: '"' :: '\'' :: escChars cs := by
        simp [escChars]
      rw [h5]
      rw [show tokAux (('\'' :: '"' :: '\'' :: '"' :: '\'' :: escChars cs) ++ rest)
            QMode.sq true acc toks
          = tokAux (escChars cs ++ rest) QMode.sq true (acc ++ ['\'']) toks from by
        simp [tokAux]]
      rw [ih]
      simp
    · have h1 : escChars (c :: cs) = c :: escChars cs := by
        simp [escChars, hc]
      rw [h1]
      rw [show tokAux ((c :: escChars cs) ++ rest) QMode.sq true acc toks
          = tokAux (escChars cs ++ rest) QMode.sq true (acc ++ [c]) toks from by
        simp [tokAux, hc]]
      rw [ih]
      simp

/-- Consuming a full `shlex`-style single-quoted token appends its unescaped
content to the current word and stays in unquoted mode. -/
theorem tokAux_quoted (s : List Char) (rest acc : List Char) (toks : List String)
    (started : Bool) :
    tokAux (('\'' :: (escChars s ++ ['\''])) ++ rest) QMode.unq started acc toks
      = tokAux rest QMode.unq true (acc ++ s) toks := by
  rw [show tokAux (('\'' :: (escChars s ++ ['\''])) ++ rest) QMode.unq started acc toks
      = tokAux ((escChars s ++ ['\'']) ++ rest) QMode.sq true acc toks from by
    simp [tokAux]]
  rw [List.append_assoc, List.singleton_append, tokAux_escChars]
  simp [tokAux]

/-! ## Rsync command rendering (ssh.py, `SSHConnector.rsync`, lines 473-552)

Host data consulted by `rsync`, with the defaults the Python code passes to
`host.data.get`.  A missing `port`/`key` is `none`; Python truthiness makes
an empty string or a zero port contribute no flag.
-/

structure SSHHostData where
  hostname : Option String := none
  user : String := ""
  known_hosts_file : String := ""
  strict_host_key_checking : String := ""
  config_file : String := ""
  port : Option Nat := none
  sshKey : Option String := none

/-- Python `" ".join`. -/
def joinSpace : List String → String
  | [] => ""
  | [x] => x
  | x :: xs => x ++ " " ++ joinSpace xs

/-- The `ssh_flags` list built by `SSHConnector.rsync`: always
`-o BatchMode=yes`, then optional known-hosts, strict-host-key-checking and
config-file flags (each shell-quoted via `shlex.quote`), then optional port
and identity flags. -/
def rsyncSshFlags (d : SSHHostData) : List String :=
  ["-o BatchMode=yes"]
    ++ (if d.known_hosts_file ≠ "" then
          ["-o \\\"UserKnownHostsFile=" ++ shlexQuote d.known_hosts_file ++ "\\\""]
        else [])
    ++ (if d.strict_host_key_checking ≠ "" then
          ["-o \\\"StrictHostKeyChecking=" ++ shlexQuote d.strict_host_key_checking ++ "\\\""]
        else [])
    ++ (if d.config_file ≠ "" then ["-F " ++ shlexQuote d.config_file] else [])
    ++ (match d.port with
        | some p => if p ≠ 0 then ["-p " ++ toString p] else []
        | none => [])
    ++ (match d.sshKey with
        | some k => if k ≠ "" then ["-i " ++ k] else []
        | none => [])

/-- The remote rsync command: `rsync`, or `sudo rsync` under `_sudo`, or
`sudo -u USER rsync` under `_sudo` with a truthy `_sudo_user`. -/
def remoteRsyncCommand (_sudo : Bool) (_sudo_user : Option String) : String :=
  if _sudo then
    match _sudo_user with
    | some u => if u ≠ "" then "sudo -u " ++ u ++ " rsync" else "sudo rsync"
    | none => "sudo rsync"
  else "rsync"

/-- The local command string `SSHConnector.rsync` hands to
`run_local_process`, rendered from the format string

    rsync {rsync_flags} --rsh "ssh {ssh_flags}" --rsync-path
    \x7bremote_rsync_command under single quotes\x7d {src} {user}{hostname}:{dest}
-/
def rsyncCommand (hostName : String) (d : SSHHostData) (flags : List String)
    (_sudo : Bool) (_sudo_user : Option String) (src dest : String) : String :=
  let hostname := match d.hostname with
    | some h => h
    | none => hostName
  let user := if d.user ≠ "" then d.user ++ "@" else ""
  "rsync " ++ joinSpace flags ++ " --rsh \"ssh " ++ joinSpace (rsyncSshFlags d)
    ++ "\" --rsync-path '" ++ remoteRsyncCommand _sudo _sudo_user ++ "' "
    ++ src ++ " " ++ user ++ hostname ++ ":" ++ dest

/-- Claim C6: with host data `known_hosts_file = ""`,
`strict_host_key_checking = "no"`, `config_file = "/home/me/cfg"`, user
`user`, hostname `host`, flags `-ax --delete` and escalation `sudo=true`,
`sudo_user="root"`, the locally executed rsync command is exactly the
claimed string; the empty known-hosts file contributes no flag. -/
theorem c6_rsync_rendered_command :
    rsyncCommand "host"
        { user := "user", strict_host_key_checking := "no", config_file := "/home/me/cfg" }
        ["-ax", "--delete"] true (some "root") "src" "dest"
      = "rsync -ax --delete --rsh \"ssh -o BatchMode=yes -o \\\"StrictHostKeyChecking=no\\\" -F /home/me/cfg\" --rsync-path 'sudo -u root rsync' src user@host:dest" := by
  decide

/-- Claim C7: a `ssh_config_file` host-data value containing a shell
metacharacter (any character outside the `shlex.quote` safe set) makes
`rsync` render the `-F` flag with the value as a single shell-escaped token:
the flag string appears in the `ssh_flags` the command is built from, and
shell word splitting of that flag string yields exactly the two words `-F`
and the original value — the value is never split into separate arguments
and none of its metacharacters reaches the shell unquoted. -/
theorem c7_config_file_quoting (s : String) (hUnsafe : s.data.all isSafeChar = false) :
    ("-F " ++ shlexQuote s) ∈ rsyncSshFlags { config_file := s }
    ∧ shellTokenize ("-F " ++ shlexQuote s) = some ["-F", s] := by
  have hne : s ≠ "" := by
    intro h
    subst h
    simp at hUnsafe
  have hq : shlexQuote s = "'" ++ String.mk (escChars s.data) ++ "'" := by
    rw [shlexQuote, if_neg hne, if_neg (by simp [hUnsafe])]
  constructor
  · simp [rsyncSshFlags, hne]
  · rw [shellTokenize, hq]
    have hdata : ("-F " ++ ("'" ++ String.mk (escChars s.data) ++ "'")).data
        = '-' :: 'F' :: ' ' :: (('\'' :: (escChars s.data ++ ['\''])) ++ []) := by
      simp [String.data_append]
    rw [hdata]
    rw [show tokAux ('-' :: 'F' :: ' ' :: (('\'' :: (escChars s.data ++ ['\''])) ++ []))
          QMode.unq false [] []
        = tokAux (('\'' :: (escChars s.data ++ ['\''])) ++ []) QMode.unq false []
            [String.mk ['-', 'F']] from by
      simp [tokAux]]
    rw [tokAux_quoted]
    simp [tokAux]

/-- Claim C7 evaluated at the spec's example value `/x && echo hi`: the
value contains metacharacters, the rendered flag is the single-quoted
token, and shell word splitting recovers exactly `-F` and the value. -/
theorem c7_witness :
    ("/x && echo hi" : String).data.all isSafeChar = false
    ∧ ("-F " ++ shlexQuote "/x && echo hi") ∈ rsyncSshFlags { config_file := "/x && echo hi" }
    ∧ shellTokenize ("-F " ++ shlexQuote "/x && echo hi") = some ["-F", "/x && echo hi"] :=
  ⟨by decide, c7_config_file_quoting "/x && echo hi" (by decide)⟩

/-! ## SSH escalated file transfers (ssh.py, `put_file` and `get_file`)

The escalation-relevant connector arguments.  Python represents an absent
user as `False`/`None`; `Option String` models present truthy values.
-/

structure EscalationArgs where
  useSudo : Bool := false
  sudoUser : Option String := none
  useDoas : Bool := false
  doasUser : Option String := none
  suUser : Option String := none
deriving DecidableEq

/-- One token of a `StringCommand`: `quoted` marks a `QuoteString` part
(shell-escaped at render time), `raw` a plain part. -/
inductive CmdToken
  | raw (s : String)
  | quoted (s : String)
deriving DecidableEq

/-- Observable side effects of the SSH connector file-transfer methods.
`runCommand` records a `run_shell_command` call together with whether the
escalation arguments were still attached to it (`escalated = true` when the
command runs with the original sudo/doas/su arguments, `false` when it runs
with those arguments popped). -/
inductive SSHAction
  | uploadTemp (tempFile : String)
  | uploadDirect (remoteFile : String)
  | downloadTemp (tempFile : String)
  | downloadDirect (remoteFile : String)
  | runCommand (cmd : List CmdToken) (escalated : Bool)
deriving DecidableEq

/-- `setfacl -m u:USER:r TEMP` (ssh.py lines 402-407). -/
def aclCommand (user tempFile : String) : List CmdToken :=
  [CmdToken.raw "setfacl", CmdToken.raw "-m", CmdToken.raw ("u:" ++ user ++ ":r"),
    CmdToken.raw tempFile]

/-- `cp TEMP QuoteString(REMOTE)` (ssh.py line 422). -/
def cpCommand (tempFile remoteFilename : String) : List CmdToken :=
  [CmdToken.raw "cp", CmdToken.raw tempFile, CmdToken.quoted remoteFilename]

/-- `rm -f TEMP` (ssh.py lines 331 and 436). -/
def rmCommand (tempFile : String) : List CmdToken :=
  [CmdToken.raw "rm", CmdToken.raw "-f", CmdToken.raw tempFile]

/-- `cp REMOTE TEMP && chmod +r TEMP` (ssh.py lines 309-311). -/
def copyToTempCommand (remoteFilename tempFile : String) : List CmdToken :=
  [CmdToken.raw "cp", CmdToken.raw remoteFilename, CmdToken.raw tempFile,
    CmdToken.raw "&&", CmdToken.raw "chmod", CmdToken.raw "+r", CmdToken.raw tempFile]

/-- Embedding of `SSHConnector.put_file` (ssh.py lines 372-459).

`upload` is the outcome of the `_put_file` SFTP transfer (an error models the
propagated exception after its internal retries are exhausted); `exec cmd
escalated` is the boolean status `run_shell_command` returns for `cmd`.  The
result pairs the trace of observable actions with either the raised error or
the returned boolean.

The escalated branch is taken when `_sudo or _doas or _su_user`; the ACL
grant happens for the first truthy user among `_su_user`, `_sudo_user`,
`_doas_user` and runs with the escalation arguments popped; the `cp` to the
destination runs with the original (escalated) arguments; on a false status
from the ACL grant or the copy, the function returns `False` at once — in
particular without issuing `rm -f` for the temporary file. -/
def sshPutFile (args : EscalationArgs) (remoteFilename tempFile : String)
    (upload : Except String Unit) (exec : List CmdToken → Bool → Bool) :
    List SSHAction × Except String Bool :=
  if args.useSudo || args.useDoas || args.suUser.isSome then
    match upload with
    | Except.error e => ([SSHAction.uploadTemp tempFile], Except.error e)
    | Except.ok _ =>
      let aclUser : Option String :=
        match args.suUser, args.sudoUser with
        | some u, _ => some u
        | none, some u => some u
        | none, none => args.doasUser
      let aclEvents : List SSHAction :=
        match aclUser with
        | some u => [SSHAction.runCommand (aclCommand u tempFile) false]
        | none => []
      let aclOk : Bool :=
        match aclUser with
        | some u => exec (aclCommand u tempFile) false
        | none => true
      let ev1 := SSHAction.uploadTemp tempFile :: aclEvents
      if aclOk then
        let ev2 := ev1 ++ [SSHAction.runCommand (cpCommand tempFile remoteFilename) true]
        if exec (cpCommand tempFile remoteFilename) true then
          let ev3 := ev2 ++ [SSHAction.runCommand (rmCommand tempFile) false]
          if exec (rmCommand tempFile) false then (ev3, Except.ok true)
          else (ev3, Except.ok false)
        else (ev2, Except.ok false)
      else (ev1, Except.ok false)
  else
    match upload with
    | Except.error e => ([SSHAction.uploadDirect remoteFilename], Except.error e)
    | Except.ok _ => ([SSHAction.uploadDirect remoteFilename], Except.ok true)

/-- Embedding of `SSHConnector.get_file` (ssh.py lines 286-350).

The escalated branch is taken when `_sudo or _su_user` (these are read with
`get`, not popped, so both remote commands run with the escalation arguments
still attached).  The copy-to-temp runs first; on a false status the
function returns `False`.  The SFTP download of the temp file runs inside
`try/finally`, so `rm -f` is issued even when the download raises; a raised
download error then propagates.  If the removal reports a false status the
function returns `False` even though the download succeeded. -/
def sshGetFile (args : EscalationArgs) (remoteFilename tempFile : String)
    (exec : List CmdToken → Bool → Bool) (download : Except String Unit) :
    List SSHAction × Except String Bool :=
  if args.useSudo || args.suUser.isSome then
    let copyCmd := copyToTempCommand remoteFilename tempFile
    if exec copyCmd true then
      let ev := [SSHAction.runCommand copyCmd true, SSHAction.downloadTemp tempFile,
        SSHAction.runCommand (rmCommand tempFile) true]
      match download with
      | Except.error e => (ev, Except.error e)
      | Except.ok _ =>
        if exec (rmCommand tempFile) true then (ev, Except.ok true)
        else (ev, Except.ok false)
    else ([SSHAction.runCommand copyCmd true], Except.ok false)
  else
    match download with
    | Except.error e => ([SSHAction.downloadDirect remoteFilename], Except.error e)
    | Except.ok _ => ([SSHAction.downloadDirect remoteFilename], Except.ok true)

/-- Claim C1 counterexample: with `_sudo=true, _sudo_user="X"` and an
executor whose privileged copy step reports failure, `put_file` returns
`False` after three actions only — the removal of the temporary path is
never issued, refuting the claim that removal is attempted on every exit
path. -/
theorem c1_claim_counterexample :
    (sshPutFile ⟨true, some "X", false, none, none⟩ "/etc/f" "/tmp/t" (Except.ok ())
        (fun _ escalated => !escalated)).2 = Except.ok false
    ∧ (sshPutFile ⟨true, some "X", false, none, none⟩ "/etc/f" "/tmp/t" (Except.ok ())
        (fun _ escalated => !escalated)).1
      = [SSHAction.uploadTemp "/tmp/t",
          SSHAction.runCommand (aclCommand "X" "/tmp/t") false,
          SSHAction.runCommand (cpCommand "/tmp/t" "/etc/f") true]
    ∧ SSHAction.runCommand (rmCommand "/tmp/t") false
        ∉ (sshPutFile ⟨true, some "X", false, none, none⟩ "/etc/f" "/tmp/t" (Except.ok ())
            (fun _ escalated => !escalated)).1 := by
  refine ⟨rfl, rfl, by decide⟩

/-- Claim C1 (amended): under `_sudo` with `_sudo_user="X"`, when the ACL
grant and the privileged copy both report success, the issued actions are
exactly the four steps upload-to-temp, `setfacl` grant to X, privileged
copy, temp removal, in that order; but the temp removal is issued only on
that success path — when the ACL grant or the privileged copy fails,
`put_file` returns `False` immediately without attempting the removal. -/
theorem c1_amended_put_file_steps (remoteFilename tempFile user : String)
    (exec : List CmdToken → Bool → Bool) :
    (exec (aclCommand user tempFile) false = true →
      exec (cpCommand tempFile remoteFilename) true = true →
      (sshPutFile ⟨true, some user, false, none, none⟩ remoteFilename tempFile
          (Except.ok ()) exec).1
        = [SSHAction.uploadTemp tempFile,
            SSHAction.runCommand (aclCommand user tempFile) false,
            SSHAction.runCommand (cpCommand tempFile remoteFilename) true,
            SSHAction.runCommand (rmCommand tempFile) false]
      ∧ (sshPutFile ⟨true, some user, false, none, none⟩ remoteFilename tempFile
          (Except.ok ()) exec).2 = Except.ok (exec (rmCommand tempFile) false))
    ∧ (exec (aclCommand user tempFile) false = false →
      (sshPutFile ⟨true, some user, false, none, none⟩ remoteFilename tempFile
          (Except.ok ()) exec).2 = Except.ok false
      ∧ SSHAction.runCommand (rmCommand tempFile) false
          ∉ (sshPutFile ⟨true, some user, false, none, none⟩ remoteFilename tempFile
              (Except.ok ()) exec).1)
    ∧ (exec (cpCommand tempFile remoteFilename) true = false →
      (sshPutFile ⟨true, some user, false, none, none⟩ remoteFilename tempFile
          (Except.ok ()) exec).2 = Except.ok false
      ∧ SSHAction.runCommand (rmCommand tempFile) false
          ∉ (sshPutFile ⟨true, some user, false, none, none⟩ remoteFilename tempFile
              (Except.ok ()) exec).1) := by
  have hrm_acl : SSHAction.runCommand (rmCommand tempFile) false
      ≠ SSHAction.runCommand (aclCommand user tempFile) false := by
    simp [rmCommand, aclCommand]
  have hrm_cp : SSHAction.runCommand (rmCommand tempFile) false
      ≠ SSHAction.runCommand (cpCommand tempFile remoteFilename) true := by
    simp [rmCommand, cpCommand]
  refine ⟨?_, ?_, ?_⟩
  · intro hacl hcp
    by_cases hrm : exec (rmCommand tempFile) false
    · exact ⟨by simp [sshPutFile, hacl, hcp, hrm], by simp [sshPutFile, hacl, hcp, hrm]⟩
    · exact ⟨by simp [sshPutFile, hacl, hcp, hrm], by simp [sshPutFile, hacl, hcp, hrm]⟩
  · intro hacl
    refine ⟨by simp [sshPutFile, hacl], ?_⟩
    simp only [sshPutFile, hacl]
    simp [hrm_acl]
  · intro hcp
    by_cases hacl : exec (aclCommand user tempFile) false
    · refine ⟨by simp [sshPutFile, hacl, hcp], ?_⟩
      simp only [sshPutFile, hacl, hcp]
      simp [hrm_acl, hrm_cp]
    · refine ⟨by simp [sshPutFile, hacl], ?_⟩
      simp only [sshPutFile, hacl]
      simp [hrm_acl]

/-- Claim C1 amended, evaluated at an executor for which every command
succeeds: the four steps appear in order and `put_file` reports success. -/
theorem c1_amended_witness :
    (sshPutFile ⟨true, some "X", false, none, none⟩ "/etc/f" "/tmp/t" (Except.ok ())
        (fun _ _ => true)).1
      = [SSHAction.uploadTemp "/tmp/t",
          SSHAction.runCommand (aclCommand "X" "/tmp/t") false,
          SSHAction.runCommand (cpCommand "/tmp/t" "/etc/f") true,
          SSHAction.runCommand (rmCommand "/tmp/t") false]
    ∧ (sshPutFile ⟨true, some "X", false, none, none⟩ "/etc/f" "/tmp/t" (Except.ok ())
        (fun _ _ => true)).2 = Except.ok true :=
  (c1_amended_put_file_steps "/etc/f" "/tmp/t" "X" (fun _ _ => true)).1 rfl rfl

/-- Claim C10: under escalation (`_sudo` or `_su_user`), when the
copy-to-temp succeeds and the SFTP download of the temp file succeeds but
the final removal of the remote temporary copy reports failure, `get_file`
returns `False` — the fully delivered download is reported as a failure. -/
theorem c10_get_file_remove_failure (remoteFilename tempFile : String)
    (exec : List CmdToken → Bool → Bool) (args : EscalationArgs)
    (hesc : (args.useSudo || args.suUser.isSome) = true)
    (hcopy : exec (copyToTempCommand remoteFilename tempFile) true = true)
    (hrm : exec (rmCommand tempFile) true = false) :
    sshGetFile args remoteFilename tempFile exec (Except.ok ())
      = ([SSHAction.runCommand (copyToTempCommand remoteFilename tempFile) true,
          SSHAction.downloadTemp tempFile,
          SSHAction.runCommand (rmCommand tempFile) true], Except.ok false) := by
  simp [sshGetFile, hesc, hcopy, hrm]

/-- Claim C10 evaluated: with `_sudo=true`, an executor that fails exactly
the `rm -f` command, and a successful download, `get_file` reports
failure after issuing copy, download and removal. -/
theorem c10_witness :
    ((⟨true, none, false, none, none⟩ : EscalationArgs).useSudo
        || (⟨true, none, false, none, none⟩ : EscalationArgs).suUser.isSome) = true
    ∧ (fun c (_ : Bool) => c != rmCommand "/tmp/t") (copyToTempCommand "/etc/f" "/tmp/t") true
        = true
    ∧ (fun c (_ : Bool) => c != rmCommand "/tmp/t") (rmCommand "/tmp/t") true = false
    ∧ sshGetFile ⟨true, none, false, none, none⟩ "/etc/f" "/tmp/t"
        (fun c _ => c != rmCommand "/tmp/t") (Except.ok ())
      = ([SSHAction.runCommand (copyToTempCommand "/etc/f" "/tmp/t") true,
          SSHAction.downloadTemp "/tmp/t",
          SSHAction.runCommand (rmCommand "/tmp/t") true], Except.ok false) :=
  ⟨by decide, by decide, by decide,
    c10_get_file_remove_failure "/etc/f" "/tmp/t" (fun c _ => c != rmCommand "/tmp/t")
      ⟨true, none, false, none, none⟩ (by decide) (by decide) (by decide)⟩

/-! ## Docker connector file transfers (docker.py, lines 183-298)

Both methods stage through a local temporary file made with `mkstemp` and a
single local `docker cp` command; their `**kwargs` parameter (the
sudo/doas/su escalation arguments among them) is ignored, as the source
comments state.  Observable side effects:
-/

inductive DockerAction
  | makeLocalTemp
  | writeLocalTemp (data : String)
  | runLocalCommand (cmd : String)
  | openDestForWrite
  | writeDest (data : String)
  | removeLocalTemp
deriving DecidableEq

/-- Embedding of `DockerConnector.put_file` (docker.py lines 183-238).
`execLocal cmd` is the `(status, stderr)` pair of the delegated local
process running `cmd`.  The source file's contents are written to the local
temp file, `docker cp TEMP ID:REMOTE` runs, the temp file is removed in the
`finally` block, and a false status then raises `IOError(stderr)`.  The
`args` parameter is ignored by the code. -/
def dockerPutFile (_args : EscalationArgs) (containerId remoteFilename tempFilename
    fileData : String) (execLocal : String → Bool × String) :
    List DockerAction × Except String Bool :=
  let cmd := "docker cp " ++ tempFilename ++ " " ++ containerId ++ ":" ++ remoteFilename
  let events := [DockerAction.makeLocalTemp, DockerAction.writeLocalTemp fileData,
    DockerAction.runLocalCommand cmd, DockerAction.removeLocalTemp]
  if (execLocal cmd).1 then (events, Except.ok true)
  else (events, Except.error (execLocal cmd).2)

/-- Embedding of `DockerConnector.get_file` (docker.py lines 240-298).
After the `docker cp ID:REMOTE TEMP` command, the code unconditionally opens
the destination file/IO object in `"wb"` mode and writes the local temp
file's contents (`tempContents`) into it; only after the `finally` cleanup
does a false status raise `IOError(stderr)`.  The `args` parameter is
ignored by the code. -/
def dockerGetFile (_args : EscalationArgs) (containerId remoteFilename tempFilename : String)
    (execLocal : String → Bool × String) (tempContents : String) :
    List DockerAction × Except String Bool :=
  let cmd := "docker cp " ++ containerId ++ ":" ++ remoteFilename ++ " " ++ tempFilename
  let events := [DockerAction.makeLocalTemp, DockerAction.runLocalCommand cmd,
    DockerAction.openDestForWrite, DockerAction.writeDest tempContents,
    DockerAction.removeLocalTemp]
  if (execLocal cmd).1 then (events, Except.ok true)
  else (events, Except.error (execLocal cmd).2)

/-- Claim C9: when `docker cp` reports a non-zero status during
`get_file`, the method raises `IOError` carrying the captured stderr, but
the trace shows the destination was already opened for writing (`"wb"`) and
the staged temp file's contents were written into it before the error was
raised: a failed download clobbers the destination. -/
theorem c9_docker_get_file_clobbers_dest (args : EscalationArgs)
    (containerId remoteFilename tempFilename tempContents stderrText : String)
    (execLocal : String → Bool × String)
    (hfail : execLocal ("docker cp " ++ containerId ++ ":" ++ remoteFilename ++ " "
        ++ tempFilename) = (false, stderrText)) :
    dockerGetFile args containerId remoteFilename tempFilename execLocal tempContents
      = ([DockerAction.makeLocalTemp,
          DockerAction.runLocalCommand ("docker cp " ++ containerId ++ ":" ++ remoteFilename
            ++ " " ++ tempFilename),
          DockerAction.openDestForWrite,
          DockerAction.writeDest tempContents,
          DockerAction.removeLocalTemp], Except.error stderrText) := by
  simp [dockerGetFile, hfail]

/-- Claim C9 evaluated: a `docker cp` that always fails with stderr `boom`
yields the raised error while the trace records the destination being opened
and written (here with the empty staged contents `mkstemp` leaves behind). -/
theorem c9_witness :
    (fun (_ : String) => (false, "boom")) ("docker cp cid:/remote/f /tmp/l")
        = (false, "boom")
    ∧ dockerGetFile ⟨false, none, false, none, none⟩ "cid" "/remote/f" "/tmp/l"
        (fun _ => (false, "boom")) ""
      = ([DockerAction.makeLocalTemp,
          DockerAction.runLocalCommand "docker cp cid:/remote/f /tmp/l",
          DockerAction.openDestForWrite,
          DockerAction.writeDest "",
          DockerAction.removeLocalTemp], Except.error "boom") := by
  refine ⟨rfl, ?_⟩
  have h := c9_docker_get_file_clobbers_dest ⟨false, none, false, none, none⟩
    "cid" "/remote/f" "/tmp/l" "" "boom" (fun _ => (false, "boom")) rfl
  simpa using h

/-- Claim C3 counterexample: the Docker connector does not perform an
escalated transfer via the temp-file workaround — its `put_file` issues the
same single unprivileged `docker cp` and identical trace whether or not
`_sudo`/`_sudo_user` are set, so the escalation options are ignored, contrary
to the claim that every connector honors them. -/
theorem c3_claim_counterexample :
    dockerPutFile ⟨true, some "X", false, none, none⟩ "cid" "/remote/f" "/tmp/l" "data"
        (fun _ => (true, ""))
      = dockerPutFile ⟨false, none, false, none, none⟩ "cid" "/remote/f" "/tmp/l" "data"
          (fun _ => (true, ""))
    ∧ (dockerPutFile ⟨true, some "X", false, none, none⟩ "cid" "/remote/f" "/tmp/l" "data"
        (fun _ => (true, ""))).1
      = [DockerAction.makeLocalTemp, DockerAction.writeLocalTemp "data",
          DockerAction.runLocalCommand "docker cp /tmp/l cid:/remote/f",
          DockerAction.removeLocalTemp] := by
  exact ⟨rfl, rfl⟩

/-- Claim C3 (amended): the SSH connector honors the escalation arguments in
`put_file` via the temp-file workaround (upload to temp, then a privileged
copy executed through `run_shell_command`, then removal), but the Docker
connector ignores them entirely: `docker cp` runs as the unprivileged
connection user and both `put_file` and `get_file` produce traces and
results invariant in the escalation arguments. -/
theorem c3_amended_escalation_handling (args args' : EscalationArgs)
    (containerId remoteFilename tempFilename fileData tempContents : String)
    (execLocal : String → Bool × String)
    (exec : List CmdToken → Bool → Bool)
    (hcp : exec (cpCommand tempFilename remoteFilename) true = true) :
    dockerPutFile args containerId remoteFilename tempFilename fileData execLocal
      = dockerPutFile args' containerId remoteFilename tempFilename fileData execLocal
    ∧ dockerGetFile args containerId remoteFilename tempFilename execLocal tempContents
      = dockerGetFile args' containerId remoteFilename tempFilename execLocal tempContents
    ∧ (sshPutFile ⟨true, none, false, none, none⟩ remoteFilename tempFilename
        (Except.ok ()) exec).1
      = [SSHAction.uploadTemp tempFilename,
          SSHAction.runCommand (cpCommand tempFilename remoteFilename) true,
          SSHAction.runCommand (rmCommand tempFilename) false] := by
  refine ⟨rfl, rfl, ?_⟩
  by_cases hrm : exec (rmCommand tempFilename) false
  · simp [sshPutFile, hcp, hrm]
  · simp [sshPutFile, hcp, hrm]

/-- Claim C3 amended, evaluated: Docker transfers at two different
escalation-argument values coincide, and the SSH escalated upload issues the
temp-file workaround steps. -/
theorem c3_amended_witness :
    (fun _ _ => true) (cpCommand "/tmp/t" "/etc/f") true = true
    ∧ dockerPutFile ⟨true, some "X", false, none, none⟩ "cid" "/etc/f" "/tmp/l" "d"
        (fun _ => (true, ""))
      = dockerPutFile ⟨false, none, false, none, none⟩ "cid" "/etc/f" "/tmp/l" "d"
          (fun _ => (true, ""))
    ∧ (sshPutFile ⟨true, none, false, none, none⟩ "/etc/f" "/tmp/t" (Except.ok ())
        (fun _ _ => true)).1
      = [SSHAction.uploadTemp "/tmp/t",
          SSHAction.runCommand (cpCommand "/tmp/t" "/etc/f") true,
          SSHAction.runCommand (rmCommand "/tmp/t") false] :=
  ⟨rfl,
    (c3_amended_escalation_handling ⟨true, some "X", false, none, none⟩
      ⟨false, none, false, none, none⟩ "cid" "/etc/f" "/tmp/l" "d" ""
      (fun _ => (true, "")) (fun _ _ => true) rfl).1,
    (c3_amended_escalation_handling ⟨true, some "X", false, none, none⟩
      ⟨false, none, false, none, none⟩ "cid" "/etc/f" "/tmp/t" "d" ""
      (fun _ => (true, "")) (fun _ _ => true) rfl).2.2⟩

/-! ## SSH connect authentication failure (ssh.py, `connect`, lines 135-152)

On `AuthenticationException` the handler walks the paramiko kwargs in
insertion order, keeps `username` and `password` entries with their values,
replaces a truthy `pkey` entry by `key=<the host's ssh_key data>`, joins the
entries as `key=value` pairs and raises a `ConnectError` whose message is
`Authentication error (...)`.
-/

/-- The credential entries of the kwargs built by `make_paramiko_kwargs`
(ssh.py lines 76-121), in dict insertion order: `username` (line 94),
`password` (line 104), `pkey` (line 109); entries are present only when the
corresponding host data is truthy.  Non-credential entries are omitted here
because the authentication-error handler skips them. -/
def makeParamikoAuthKwargs (user password pkeyRepr : Option String) :
    List (String × String) :=
  (match user with
    | some u => [("username", u)]
    | none => []) ++
  (match password with
    | some p => [("password", p)]
    | none => []) ++
  (match pkeyRepr with
    | some k => [("pkey", k)]
    | none => [])

/-- Python `", ".join`. -/
def joinComma : List String → String
  | [] => ""
  | [x] => x
  | x :: xs => x ++ ", " ++ joinComma xs

/-- The `auth_args` pieces assembled by the `AuthenticationException`
handler: `key=value` for `username` and `password` (values included
verbatim), `key=<host ssh_key data>` for a truthy `pkey`. -/
def authArgsList (kwargs : List (String × String)) (hostSshKeyData : Option String) :
    List String :=
  kwargs.foldl
    (fun acc kv =>
      if kv.1 = "username" || kv.1 = "password" then acc ++ [kv.1 ++ "=" ++ kv.2]
      else if kv.1 = "pkey" && kv.2 != "" then
        acc ++ ["key=" ++ (match hostSshKeyData with | some k => k | none => "None")]
      else acc)
    []

/-- The user-facing message passed to `raise_connect_error`. -/
def authErrorMessage (kwargs : List (String × String)) (hostSshKeyData : Option String) :
    String :=
  "Authentication error (" ++ joinComma (authArgsList kwargs hostSshKeyData) ++ ")"

/-- Claim C2 counterexample: with user `vagrant` and configured password
`hunter2`, the authentication-error message contains the password value
verbatim — the code formats `password=<value>` into the message instead of
redacting it. -/
theorem c2_claim_counterexample :
    authErrorMessage (makeParamikoAuthKwargs (some "vagrant") (some "hunter2") none) none
      = "Authentication error (username=vagrant, password=hunter2)"
    ∧ ∃ pre post,
        authErrorMessage (makeParamikoAuthKwargs (some "vagrant") (some "hunter2") none) none
          = pre ++ "hunter2" ++ post := by
  refine ⟨by decide, "Authentication error (username=vagrant, password=", ")", by decide⟩

/-- Claim C2 (amended): on an authentication error with a configured
username and password, the message reports the attempted credential fields
as `key=value` pairs with their raw values — including the configured
password verbatim; the password is not redacted. -/
theorem c2_amended_auth_error_message (u p : String) :
    authArgsList (makeParamikoAuthKwargs (some u) (some p) none) none
      = ["username=" ++ u, "password=" ++ p]
    ∧ authErrorMessage (makeParamikoAuthKwargs (some u) (some p) none) none
      = "Authentication error (" ++ (("username=" ++ u) ++ ", " ++ ("password=" ++ p)) ++ ")" := by
  constructor
  · rfl
  · rfl

/-! ## Orchestrator result tallies and fleet exhaustion -/

/-- Per-host result tally (spec section 3 and the assertions of
`TestOperationFailures.test_full_op_fail`). -/
structure HostResults where
  ops : Nat
  success_ops : Nat
  error_ops : Nat
  ignored_error_ops : Nat
deriving DecidableEq

/-- Modelled from the spec: the host-execution orchestrator (`run_ops` in
`pyinfra/api/operations.py`) is not among the provided sources — only its
test surface is.  Per the spec (section 4.4): executing one operation
against every host folds each host's outcome into its tally (an error with
ignore-errors unset increments `error_ops` and removes the host from the
run; with ignore-errors set it increments `ignored_error_ops` only; a
success increments `success_ops`), and if every host has been removed the
run fails fatally with the error "No hosts remaining!".  The result pairs
the per-host tallies with the optional fatal error. -/
def runSingleOp (hosts : List String) (execute : String → Bool) (ignoreErrors : Bool) :
    List (String × HostResults) × Option String :=
  let results := hosts.map fun h =>
    if execute h then (h, HostResults.mk 1 1 0 0)
    else if ignoreErrors then (h, HostResults.mk 1 0 0 1)
    else (h, HostResults.mk 1 0 1 0)
  let remaining := hosts.filter fun h => execute h || ignoreErrors
  (results, if remaining.isEmpty then some "No hosts remaining!" else none)

/-- Claim C8: with one operation declared for every host, every host's
command execution failing and ignore-errors unset, the run fails fatally
with "No hosts remaining!" and every host's tally ends with
`error_ops = 1` and `success_ops = 0`. -/
theorem c8_no_hosts_remaining (hosts : List String) (execute : String → Bool)
    (_hne : hosts ≠ []) (hfail : ∀ h ∈ hosts, execute h = false) :
    (runSingleOp hosts execute false).2 = some "No hosts remaining!"
    ∧ (runSingleOp hosts execute false).1
        = hosts.map (fun h => (h, HostResults.mk 1 0 1 0)) := by
  constructor
  · simp [runSingleOp]
    exact hfail
  · simp only [runSingleOp]
    exact List.map_congr_left fun h hh => by simp [hfail h hh]

/-- Claim C8 evaluated on the two-host inventory of the test suite with an
execution that fails everywhere: the fatal error is raised and both hosts
tally one errored operation and no successes. -/
theorem c8_witness :
    (["somehost", "anotherhost"] : List String) ≠ []
    ∧ (runSingleOp ["somehost", "anotherhost"] (fun _ => false) false).2
        = some "No hosts remaining!"
    ∧ (runSingleOp ["somehost", "anotherhost"] (fun _ => false) false).1
        = [("somehost", HostResults.mk 1 0 1 0), ("anotherhost", HostResults.mk 1 0 1 0)] := by
  have h := c8_no_hosts_remaining ["somehost", "anotherhost"] (fun _ => false)
    (by decide) (fun h _ => rfl)
  exact ⟨by decide, h.1, h.2⟩
